import Mathlib

/-!
Shallow embedding of `src/match.py` (repository `qb-reconcile`).

Modelling conventions:
* Currency amounts are rational numbers (`ℚ`); the source's Python floats
  carry cent-level data and every comparison in the source happens after
  rounding to two decimals, so `ℚ` with an explicit round-half-even
  (numpy/pandas rounding) is the faithful abstraction.
* Datetimes produced by `_standardize_date` are date-only (midnight); the
  matching pipeline only ever uses signed day differences, so dates inside
  the matcher are modelled as integer day numbers (`ℤ`), with
  `(d1 - d2).natAbs` embedding `abs((date1 - date2).days)`.
* Strings are processed through their character lists, with structurally
  recursive helpers standing in for Python's `str.split` / `float` parsing.
-/

namespace QbReconcile

instance {ε α : Type} [DecidableEq ε] [DecidableEq α] : DecidableEq (Except ε α) :=
  fun x y =>
    match x, y with
    | .ok a, .ok b => decidable_of_iff (a = b) (by simp)
    | .error a, .error b => decidable_of_iff (a = b) (by simp)
    | .ok _, .error _ => isFalse (by simp)
    | .error _, .ok _ => isFalse (by simp)

/-- Executable floor of a rational (`⌊q⌋`, see `ratFloor_eq_floor`). -/
def ratFloor (q : ℚ) : ℤ := q.num / (q.den : ℤ)

/-- Round-half-even on a rational, as numpy/pandas `round` does on the
integer-scaled value.  With `f = ⌊q⌋`, the fractional part `q - f`
equals `(q.num - f * q.den) / q.den`, so comparing it against `1/2`
is comparing `2 * (q.num - f * q.den)` against `q.den`. -/
def roundHalfEven (q : ℚ) : ℤ :=
  let f := ratFloor q
  let r2 := 2 * (q.num - f * (q.den : ℤ))
  if r2 < (q.den : ℤ) then f
  else if (q.den : ℤ) < r2 then f + 1
  else if f % 2 = 0 then f else f + 1

/-- Embeds `Series.round(2)` from `find_mismatches`: round an amount to two
decimal places.  `mkRat (q.num * 100) q.den` is `q * 100` and
`mkRat n 100` is `(n : ℚ) / 100`, written with `mkRat` so that the
function evaluates by kernel reduction (see `round2_eq_div`). -/
def round2 (q : ℚ) : ℚ := mkRat (roundHalfEven (mkRat (q.num * 100) q.den)) 100

/-- One occurrence inside an amount bucket: the `(date, description, 1)`
tuples the source builds in `info1`/`info2` (the constant `1` is dropped
as it is never read). -/
structure Occ where
  date : ℤ
  desc : String
deriving DecidableEq

/-- A standardized transaction row after `_load_and_standardize_file`:
the `amount`, `date`, `description` columns the matcher reads. -/
structure Tx where
  amount : ℚ
  date : ℤ
  desc : String
deriving DecidableEq

/-- A row of the merged mismatch frame: `amount`, `count1`, `count2`,
`info1`, `info2` (ledger 1 = bank file, ledger 2 = QuickBooks file).
An amount absent from one ledger contributes count 0 and an empty list,
as the source's `fillna(0)` and `isinstance(..., list)` guard arrange. -/
structure MismatchRecord where
  amount : ℚ
  count1 : ℕ
  count2 : ℕ
  info1 : List Occ
  info2 : List Occ
deriving DecidableEq

/-- Occurrences a ledger contributes to the bucket of rounded amount `a`
(`groupby('amount')` after `round(2)`, preserving row order). -/
def occList (a : ℚ) (txs : List Tx) : List Occ :=
  (txs.filter (fun t => round2 t.amount = a)).map (fun t => ⟨t.date, t.desc⟩)

/-- The merged row for bucket key `a`: both counts and both info lists. -/
def bucketRecord (txs1 txs2 : List Tx) (a : ℚ) : MismatchRecord :=
  ⟨a, (occList a txs1).length, (occList a txs2).length,
    occList a txs1, occList a txs2⟩

/-- The bucket keys of the outer merge: every rounded amount occurring in
either ledger, each once. -/
def amountKeys (txs1 txs2 : List Tx) : List ℚ :=
  (((txs1 ++ txs2).map (fun t => round2 t.amount))).dedup

/-- Embeds `TransactionMatcher.find_mismatches` after loading: round both
ledgers' amounts, group by amount, outer-merge, and split into the rows
where ledger 1 has more occurrences (`count1 > count2`) and those where
ledger 2 has more (`count2 > count1`). -/
def find_mismatches (txs1 txs2 : List Tx) : List MismatchRecord × List MismatchRecord :=
  let recs := (amountKeys txs1 txs2).map (bucketRecord txs1 txs2)
  (recs.filter (fun r => r.count2 < r.count1),
   recs.filter (fun r => r.count1 < r.count2))

/-- Embeds the nested `find_matches(date1, dates_list)` of `main`: first
collect exact date matches, then dates within 3 days; the second component
is the always-empty list the source returns. -/
def find_matches (date1 : ℤ) (datesList : List Occ) : Bool × List ℤ :=
  let exactMatches := (datesList.filter (fun o => date1 = o.date)).map Occ.date
  if exactMatches.isEmpty then
    let closeMatches :=
      (datesList.filter (fun o => (date1 - o.date).natAbs ≤ 3)).map Occ.date
    if closeMatches.isEmpty then (false, []) else (true, [])
  else (true, [])

/-- Embeds the nested `format_date_info` of `main`: `none` when the
occurrence has a (tolerance) match — it is not reported — and the printed
line otherwise.  `strftime('%Y-%m-%d')` on a day-number date is rendered
as `toString`. -/
def format_date_info (date1 : ℤ) (desc1 : String) (datesList : List Occ) : Option String :=
  if (find_matches date1 datesList).1 then none
  else some (toString date1 ++ ": " ++ desc1 ++ " (no match)")

/-- The `match_info` list built per row of `print_mismatches`: the
unexplained lines among `dates1`, each checked against `dates2`. -/
def match_info (info1 info2 : List Occ) : List String :=
  info1.filterMap (fun o => format_date_info o.date o.desc info2)

/-- Embeds the nested `print_mismatches` of `main`, one output tuple per
printed row: `(amount, qb_count, bank_count, match_info)`.  Note the
source reads `row['info1']`, `row['info2']`, `row['count1']`,
`row['count2']` by column *name*, so both report directions take
`dates1` from ledger 1 and `dates2` from ledger 2; rows whose
`match_info` is empty are not printed. -/
def print_mismatches (df : List MismatchRecord) : List (ℚ × ℕ × ℕ × List String) :=
  df.filterMap (fun r =>
    let mi := match_info r.info1 r.info2
    if mi.isEmpty then none else some (r.amount, r.count2, r.count1, mi))

/-- The whole report of `main`: the printed rows of the bank-excess
direction and of the QuickBooks-excess direction. -/
def report (txs1 txs2 : List Tx) : List (ℚ × ℕ × ℕ × List String) × List (ℚ × ℕ × ℕ × List String) :=
  let ms := find_mismatches txs1 txs2
  (print_mismatches ms.1, print_mismatches ms.2)

/-! ## Parsing and loading (`_standardize_date`, `_standardize_amount`,
`_load_and_standardize_file`) -/

/-- Split a character list at every occurrence of `sep`
(Python `str.split(sep)` on the single-character separators used here). -/
def splitOnSep (sep : Char) : List Char → List (List Char)
  | [] => [[]]
  | c :: cs =>
    match splitOnSep sep cs with
    | [] => [[]]
    | h :: t => if c = sep then [] :: h :: t else (c :: h) :: t

/-- Whether a nonempty character list is all decimal digits. -/
def isDigits (cs : List Char) : Bool := !cs.isEmpty && cs.all Char.isDigit

/-- The numeric value of a decimal digit string. -/
def natOfDigits (cs : List Char) : ℕ :=
  cs.foldl (fun a c => a * 10 + (c.toNat - '0'.toNat)) 0

/-- A calendar date, as produced by the source's date parsing (the parsed
datetimes are date-only: both accepted formats carry no time of day). -/
structure Date where
  year : ℕ
  month : ℕ
  day : ℕ
deriving DecidableEq

/-- Gregorian leap-year rule. -/
def isLeap (y : ℕ) : Bool := y % 4 = 0 && (y % 100 ≠ 0 || y % 400 = 0)

/-- Number of days in a month. -/
def daysInMonth (y m : ℕ) : ℕ :=
  if m = 2 then (if isLeap y then 29 else 28)
  else if m = 4 ∨ m = 6 ∨ m = 9 ∨ m = 11 then 30 else 31

/-- Whether `y`-`m`-`d` is a real calendar date. -/
def validDate (y m d : ℕ) : Bool :=
  1 ≤ m && m ≤ 12 && 1 ≤ d && d ≤ daysInMonth y m

/-- Parse month/day/year character chunks shared by both formats. -/
def dateOfChunks (ms ds ys : List Char) : Option Date :=
  if isDigits ms && ms.length ≤ 2 && isDigits ds && ds.length ≤ 2
      && isDigits ys && ys.length = 4 then
    let m := natOfDigits ms
    let d := natOfDigits ds
    let y := natOfDigits ys
    if validDate y m d then some ⟨y, m, d⟩ else none
  else none

/-- Models `pd.to_datetime(date_str, format='%m/%d/%Y')`: strict
month/day/year parsing, `none` standing for the raised `ValueError`. -/
def parseMMDDYYYY (s : String) : Option Date :=
  match splitOnSep '/' s.data with
  | [ms, ds, ys] => dateOfChunks ms ds ys
  | _ => none

/-- Strict ISO `YYYY-MM-DD` parsing: the spec's second candidate format
(and the ISO branch of the modelled fallback below). -/
def parseISO (s : String) : Option Date :=
  match splitOnSep '-' s.data with
  | [ys, ms, ds] =>
    if ys.length = 4 then dateOfChunks ms ds ys else none
  | _ => none

/-- Month number of a capitalized three-letter English month name. -/
def monthOfName (cs : List Char) : Option ℕ :=
  if cs = ['J', 'a', 'n'] then some 1
  else if cs = ['F', 'e', 'b'] then some 2
  else if cs = ['M', 'a', 'r'] then some 3
  else if cs = ['A', 'p', 'r'] then some 4
  else if cs = ['M', 'a', 'y'] then some 5
  else if cs = ['J', 'u', 'n'] then some 6
  else if cs = ['J', 'u', 'l'] then some 7
  else if cs = ['A', 'u', 'g'] then some 8
  else if cs = ['S', 'e', 'p'] then some 9
  else if cs = ['O', 'c', 't'] then some 10
  else if cs = ['N', 'o', 'v'] then some 11
  else if cs = ['D', 'e', 'c'] then some 12
  else none

/-- Month-name dates of the form `Mon D YYYY` (for example `Jan 5 2024`),
one of the many non-ISO forms pandas's lenient parser accepts. -/
def parseMonthName (s : String) : Option Date :=
  match splitOnSep ' ' s.data with
  | [ms, ds, ys] =>
    match monthOfName ms with
    | some m =>
      if isDigits ds && ds.length ≤ 2 && isDigits ys && ys.length = 4 then
        let d := natOfDigits ds
        let y := natOfDigits ys
        if validDate y m d then some ⟨y, m, d⟩ else none
      else none
    | none => none
  | _ => none

/-- Models `pd.to_datetime(date_str)` with no explicit format — pandas's
lenient dateutil-based parser, which accepts ISO `YYYY-MM-DD` dates but
also many other forms.  The model keeps two branches the library
genuinely accepts with these values: strict ISO, and `Mon D YYYY`
month-name dates (the latter witnessing that the fallback is wider than
the spec's candidate formats).  The library's further formats are not
modelled, so claim theorems rely on this model's failures only at
concrete inputs the library also rejects (such as `garbage`). -/
def parseFallback (s : String) : Option Date :=
  match parseISO s with
  | some d => some d
  | none => parseMonthName s

/-- Embeds `TransactionMatcher._standardize_date`: try `MM/DD/YYYY`
first, fall back to the formatless lenient parse, and fail with the
`Unable to parse date` error when both attempts fail. -/
def standardize_date (s : String) : Except String Date :=
  match parseMMDDYYYY s with
  | some d => .ok d
  | none =>
    match parseFallback s with
    | some d => .ok d
    | none => .error ("Unable to parse date: " ++ s)

/-- Parse an unsigned decimal literal (`digits`, `digits.digits`,
`digits.`, `.digits`) into a rational. -/
def parseUnsignedDec (cs : List Char) : Option ℚ :=
  match splitOnSep '.' cs with
  | [ip] => if isDigits ip then some ((natOfDigits ip : ℤ) : ℚ) else none
  | [ip, fp] =>
    if (ip.all Char.isDigit) && (fp.all Char.isDigit) && !(ip.isEmpty && fp.isEmpty) then
      some (mkRat ((natOfDigits ip) * 10 ^ fp.length + natOfDigits fp) (10 ^ fp.length))
    else none
  | _ => none

/-- Models Python `float(...)` on the decimal literals that occur in the
amount columns: an optional sign followed by an unsigned decimal. -/
def parseDec (cs : List Char) : Option ℚ :=
  match cs with
  | '-' :: rest => (parseUnsignedDec rest).map Neg.neg
  | '+' :: rest => parseUnsignedDec rest
  | _ => parseUnsignedDec cs

/-- Embeds `float(str(cell).replace(',', ''))`: strip thousands
separators, then convert. -/
def parseFloat (s : String) : Option ℚ :=
  parseDec (s.data.filter (fun c => c ≠ ','))

/-- The per-ledger section of `config.yaml`, with the defaults the source
applies via `dict.get`. -/
structure FileConfig where
  date_col : String := "Date"
  desc_col : String := "Description"
  amount_column : Option String := none
  charge_amount : Option String := none
  payment_amount : Option String := none
  charges_are_negative : Bool := true
  skip_rows : ℕ := 0
deriving DecidableEq

/-- Embeds `"QB" if file_config.get('description') == "Memo" else "bank"`. -/
def fileType (fc : FileConfig) : String :=
  if fc.desc_col = "Memo" then "QB" else "bank"

/-- A loaded CSV after `pd.read_csv`: header names plus rows of
column-name/cell-text pairs.  A missing pair models a NaN cell. -/
structure Csv where
  columns : List String
  rows : List (List (String × String))

/-- Cell lookup by column name. -/
def lookupCell (row : List (String × String)) (c : String) : Option String :=
  (row.find? (fun p => p.1 = c)).map Prod.snd

/-- The errors `_load_and_standardize_file` can raise: `KeyError` for a
missing configured column (the schema errors), and the `ValueError`s of
date and amount conversion. -/
inductive LoadError where
  | schemaError (kind col ftype : String) (skiprows : ℕ) (cols : List String)
  | dateParseError (msg : String)
  | amountParseError (cell : String)
deriving DecidableEq

/-- The message text of each error, following the source's f-strings; a
schema error ends with the comma-joined list of columns actually
present in the file. -/
def LoadError.message : LoadError → String
  | .schemaError kind col ftype sk cols =>
    kind ++ " column '" ++ col ++ "' not found in " ++ ftype
      ++ " CSV.\nColumns in file (after skipping " ++ toString sk
      ++ " rows): " ++ String.intercalate ", " cols
  | .dateParseError m => m
  | .amountParseError cell => "could not convert string to float: " ++ cell

/-- Whether an error is one of the schema (`KeyError`) errors. -/
def LoadError.isSchema : LoadError → Bool
  | .schemaError .. => true
  | _ => false

/-- Embeds `_standardize_amount` applied to one row: either the single
signed amount column with the `charges_are_negative` flag, or the
separate charge/payment columns where a present non-empty charge wins,
else the negated payment, else `0`. -/
def standardize_amount_row (fc : FileConfig) (row : List (String × String)) :
    Except LoadError ℚ :=
  match fc.amount_column with
  | some c =>
    let s := (lookupCell row c).getD ""
    match parseFloat s with
    | some v => .ok (if fc.charges_are_negative then -v else v)
    | none => .error (.amountParseError s)
  | none =>
    let payment : Except LoadError ℚ :=
      match fc.payment_amount with
      | some pc =>
        match lookupCell row pc with
        | some s =>
          if s = "" then .ok 0
          else
            match parseFloat s with
            | some v => .ok (-v)
            | none => .error (.amountParseError s)
        | none => .ok 0
      | none => .ok 0
    match fc.charge_amount with
    | some cc =>
      match lookupCell row cc with
      | some s =>
        if s = "" then payment
        else
          match parseFloat s with
          | some v => .ok v
          | none => .error (.amountParseError s)
      | none => payment
    | none => payment

/-- Parse the date cell of one row, wrapping the `ValueError` message. -/
def rowDate (fc : FileConfig) (row : List (String × String)) :
    Except LoadError Date :=
  match standardize_date ((lookupCell row fc.date_col).getD "") with
  | .ok d => .ok d
  | .error m => .error (.dateParseError m)

/-- Map a fallible function over a list, stopping at the first error
(`Series.apply`, which raises at the first failing cell). -/
def mapME (f : α → Except LoadError β) : List α → Except LoadError (List β)
  | [] => .ok []
  | a :: l =>
    match f a with
    | .error e => .error e
    | .ok b =>
      match mapME f l with
      | .error e => .error e
      | .ok bs => .ok (b :: bs)

/-- Returns `none` when the configured column (if any) is present, `some c` when
column `c` is configured but absent. -/
def optAbsent (oc : Option String) (cols : List String) : Option String :=
  match oc with
  | some c => if c ∈ cols then none else some c
  | none => none

/-- A standardized row: the `date`, `description`, `amount` columns the
matcher consumes. -/
structure LoadedTx where
  date : Date
  desc : String
  amount : ℚ
deriving DecidableEq

/-- Embeds `_load_and_standardize_file` after `pd.read_csv`, in source
order: check the date column and parse every date, check the description
column and fill missing descriptions with `""`, check the amount /
charge / payment columns, then standardize every amount. -/
def load_and_standardize (fc : FileConfig) (csv : Csv) :
    Except LoadError (List LoadedTx) :=
  if fc.date_col ∈ csv.columns then
    match mapME (rowDate fc) csv.rows with
    | .error e => .error e
    | .ok dates =>
      if fc.desc_col ∈ csv.columns then
        let descs := csv.rows.map (fun r => (lookupCell r fc.desc_col).getD "")
        match optAbsent fc.amount_column csv.columns with
        | some c =>
          .error (.schemaError "Amount" c (fileType fc) fc.skip_rows csv.columns)
        | none =>
          match optAbsent fc.charge_amount csv.columns with
          | some c =>
            .error (.schemaError "Charge" c (fileType fc) fc.skip_rows csv.columns)
          | none =>
            match optAbsent fc.payment_amount csv.columns with
            | some c =>
              .error (.schemaError "Payment" c (fileType fc) fc.skip_rows csv.columns)
            | none =>
              match mapME (standardize_amount_row fc) csv.rows with
              | .error e => .error e
              | .ok amounts =>
                .ok ((dates.zip (descs.zip amounts)).map
                  (fun p => ⟨p.1, p.2.1, p.2.2⟩))
      else
        .error (.schemaError "Description" fc.desc_col (fileType fc) fc.skip_rows csv.columns)
  else
    .error (.schemaError "Date" fc.date_col (fileType fc) fc.skip_rows csv.columns)

/-! ## Helper lemmas -/

lemma natAbs_sub_comm (a b : ℤ) : (a - b).natAbs = (b - a).natAbs := by
  rw [← Int.natAbs_neg, neg_sub]

lemma isEmpty_map {α β : Type} (f : α → β) (l : List α) :
    (l.map f).isEmpty = l.isEmpty := by
  cases l <;> rfl

/-- The explained-check of `find_matches` is exactly an existence test
over the other ledger's occurrence list with day-distance at most 3
(an exact date match being distance 0). -/
lemma isEmpty_false_of_ne_nil {α : Type} {l : List α} (h : l ≠ []) :
    l.isEmpty = false := by
  cases hb : l.isEmpty
  · rfl
  · exact absurd (List.isEmpty_iff.mp hb) h

lemma find_matches_fst_iff (d : ℤ) (ds : List Occ) :
    (find_matches d ds).1 = true ↔ ∃ o ∈ ds, (d - o.date).natAbs ≤ 3 := by
  unfold find_matches
  by_cases hex : (ds.filter (fun o => decide (d = o.date))) = []
  · by_cases hcl : (ds.filter (fun o => decide ((d - o.date).natAbs ≤ 3))) = []
    · simp only [hex, hcl, List.map_nil, List.isEmpty_nil, if_true]
      constructor
      · intro h; exact absurd h (by decide)
      · rintro ⟨o, ho, hle⟩
        have := List.filter_eq_nil_iff.mp hcl o ho
        simp only [decide_eq_true_eq] at this
        omega
    · simp only [hex, List.map_nil, List.isEmpty_nil, if_true, isEmpty_map,
        isEmpty_false_of_ne_nil hcl, Bool.false_eq_true, if_false]
      rcases List.exists_mem_of_ne_nil _ hcl with ⟨o, ho⟩
      rw [List.mem_filter] at ho
      exact ⟨fun _ => ⟨o, ho.1, by simpa using ho.2⟩, fun _ => trivial⟩
  · simp only [isEmpty_map, isEmpty_false_of_ne_nil hex, Bool.false_eq_true, if_false]
    rcases List.exists_mem_of_ne_nil _ hex with ⟨o, ho⟩
    rw [List.mem_filter] at ho
    refine ⟨fun _ => ⟨o, ho.1, ?_⟩, fun _ => trivial⟩
    have : d = o.date := by simpa using ho.2
    simp [this]

/-- The boolean result of `find_matches` only reads the dates of the
occurrence list, never the descriptions. -/
lemma find_matches_eq_of_dates (d : ℤ) {B B' : List Occ}
    (h : B.map Occ.date = B'.map Occ.date) :
    find_matches d B = find_matches d B' := by
  have key : ∀ (q : ℤ → Bool) (L L' : List Occ),
      L.map Occ.date = L'.map Occ.date →
      (L.filter (fun o => q o.date)).map Occ.date
        = (L'.filter (fun o => q o.date)).map Occ.date := by
    intro q L L' hLL
    have h1 : ∀ (M : List Occ),
        (M.filter (fun o => q o.date)).map Occ.date = (M.map Occ.date).filter q := by
      intro M
      induction M with
      | nil => rfl
      | cons a l ih => by_cases hq : q a.date <;> simp [List.filter_cons, hq, ih]
    rw [h1, h1, hLL]
  unfold find_matches
  rw [key (fun x => decide (d = x)) B B' h, key (fun x => decide ((d - x).natAbs ≤ 3)) B B' h]

/-! ## Claims C3, C5, C6, C8, C10 -/

/-- Claim C3: in single-amount mode, when `charges_are_negative` is true
the canonical amount is the negation of the parsed raw value, and when
false the parsed raw value is kept unchanged; this holds for every row
processed in that mode. -/
theorem C3_single_amount_normalization (fc : FileConfig)
    (row : List (String × String)) (c s : String) (v : ℚ)
    (hc : fc.amount_column = some c)
    (hs : lookupCell row c = some s)
    (hv : parseFloat s = some v) :
    standardize_amount_row fc row = .ok (if fc.charges_are_negative then -v else v) := by
  simp [standardize_amount_row, hc, hs, hv]

/-- Witness for C3 at raw values `-50.00` and `+50.00`. -/
theorem C3_single_amount_normalization_witness :
    standardize_amount_row { amount_column := some "Amount" } [("Amount", "-50.00")]
        = .ok 50
    ∧ standardize_amount_row { amount_column := some "Amount" } [("Amount", "50.00")]
        = .ok (-50)
    ∧ standardize_amount_row
        { amount_column := some "Amount", charges_are_negative := false }
        [("Amount", "-50.00")] = .ok (-50) := by
  refine ⟨?_, ?_, ?_⟩
  · simpa using
      C3_single_amount_normalization { amount_column := some "Amount" }
        [("Amount", "-50.00")] "Amount" "-50.00" (-50) rfl (by decide) (by decide)
  · simpa using
      C3_single_amount_normalization { amount_column := some "Amount" }
        [("Amount", "50.00")] "Amount" "50.00" 50 rfl (by decide) (by decide)
  · simpa using
      C3_single_amount_normalization
        { amount_column := some "Amount", charges_are_negative := false }
        [("Amount", "-50.00")] "Amount" "-50.00" (-50) rfl (by decide) (by decide)

/-- Claim C8 counterexample: `Jan 5 2024` matches neither candidate
format — not `MM/DD/YYYY` and not the ISO-like `YYYY-MM-DD` — yet the
program's formatless fallback parses it successfully, so "fails with a
date-parse error when no candidate format matches" is false. -/
theorem C8_counterexample_fallback_wider_than_candidates :
    parseMMDDYYYY "Jan 5 2024" = none
    ∧ parseISO "Jan 5 2024" = none
    ∧ standardize_date "Jan 5 2024" = .ok ⟨2024, 1, 5⟩ := by
  refine ⟨by decide, by decide, by decide⟩

/-- Claim C8 (amended): date parsing attempts `MM/DD/YYYY` first and,
on failure, the formatless lenient parser (which accepts the ISO-like
`YYYY-MM-DD` among other forms); the first successful attempt wins, so
the ambiguous `01/02/2024` is always read month-first as January 2,
and a string rejected by both attempts — such as `garbage` — raises
the `Unable to parse date` error. -/
theorem C8_date_format_order :
    (∀ (s : String) (d : Date), parseMMDDYYYY s = some d → standardize_date s = .ok d)
    ∧ (∀ (s : String) (d : Date), parseMMDDYYYY s = none → parseFallback s = some d →
        standardize_date s = .ok d)
    ∧ standardize_date "01/02/2024" = .ok ⟨2024, 1, 2⟩
    ∧ standardize_date "garbage" = .error ("Unable to parse date: " ++ "garbage") := by
  refine ⟨?_, ?_, by decide, by decide⟩
  · intro s d h; simp [standardize_date, h]
  · intro s d h1 h2; simp [standardize_date, h1, h2]

/-- Witness for C8: an ISO date is rejected by the first format and
parsed by the fallback. -/
theorem C8_date_format_order_witness :
    parseMMDDYYYY "2024-01-05" = none
    ∧ standardize_date "2024-01-05" = .ok ⟨2024, 1, 5⟩ :=
  ⟨by decide,
   C8_date_format_order.2.1 "2024-01-05" ⟨2024, 1, 5⟩ (by decide) (by decide)⟩

/-- Claim C5: with the fixed 3-day tolerance, an occurrence exactly 3
days from some same-amount occurrence of the other ledger is marked
explained (not reported), one 4 days from every such occurrence is
marked unexplained (reported), and the day-distance test is symmetric;
dates carry no time-of-day component (they are whole day numbers). -/
theorem C5_tolerance_boundary :
    (∀ (d1 : ℤ) (s : String) (ds : List Occ) (o : Occ), o ∈ ds →
        (d1 - o.date).natAbs = 3 → format_date_info d1 s ds = none)
    ∧ (∀ (d1 : ℤ) (s : String) (ds : List Occ),
        (∀ o ∈ ds, (d1 - o.date).natAbs = 4) →
        format_date_info d1 s ds
          = some (toString d1 ++ ": " ++ s ++ " (no match)"))
    ∧ (∀ (d1 d2 : ℤ) (s1 s2 : String),
        (find_matches d1 [⟨d2, s2⟩]).1 = (find_matches d2 [⟨d1, s1⟩]).1) := by
  refine ⟨?_, ?_, ?_⟩
  · intro d1 s ds o ho h3
    have : (find_matches d1 ds).1 = true :=
      (find_matches_fst_iff d1 ds).2 ⟨o, ho, le_of_eq h3⟩
    simp [format_date_info, this]
  · intro d1 s ds hall
    have hnot : ¬((find_matches d1 ds).1 = true) := by
      rw [find_matches_fst_iff]
      rintro ⟨o, ho, hle⟩
      have := hall o ho
      omega
    have hf : (find_matches d1 ds).1 = false := by
      cases h : (find_matches d1 ds).1
      · rfl
      · exact absurd h hnot
    simp [format_date_info, hf]
  · intro d1 d2 s1 s2
    have h1 := find_matches_fst_iff d1 [⟨d2, s2⟩]
    have h2 := find_matches_fst_iff d2 [⟨d1, s1⟩]
    simp only [List.mem_singleton] at h1 h2
    rw [Bool.eq_iff_iff, h1, h2]
    constructor
    · rintro ⟨o, rfl, hle⟩
      exact ⟨⟨d1, s1⟩, rfl, by rw [natAbs_sub_comm] at hle; exact hle⟩
    · rintro ⟨o, rfl, hle⟩
      exact ⟨⟨d2, s2⟩, rfl, by rw [natAbs_sub_comm] at hle; exact hle⟩

/-- Witness for C5: distance 3 is explained, distance 4 is reported. -/
theorem C5_tolerance_boundary_witness :
    format_date_info 0 "a" [⟨3, "b"⟩] = none
    ∧ format_date_info 0 "a" [⟨4, "b"⟩]
        = some (toString (0 : ℤ) ++ ": " ++ "a" ++ " (no match)") :=
  ⟨C5_tolerance_boundary.1 0 "a" [⟨3, "b"⟩] ⟨3, "b"⟩ (by decide) (by decide),
   C5_tolerance_boundary.2.1 0 "a" [⟨4, "b"⟩] (by decide)⟩

/-- Claim C6: the explained-check is a per-occurrence existence test over
the other ledger's full occurrence list, never consuming counterparts:
a single ledger-B occurrence within tolerance of several ledger-A
occurrences marks all of them explained. -/
theorem C6_existence_check_not_consumable :
    (∀ (d : ℤ) (ds : List Occ),
        (find_matches d ds).1 = true ↔ ∃ o ∈ ds, (d - o.date).natAbs ≤ 3)
    ∧ (∀ (as bs : List Occ) (b : Occ), b ∈ bs →
        (∀ a ∈ as, (a.date - b.date).natAbs ≤ 3) →
        (∀ a ∈ as, format_date_info a.date a.desc bs = none)
          ∧ match_info as bs = []) := by
  refine ⟨find_matches_fst_iff, ?_⟩
  intro as bs b hb hall
  have hfmt : ∀ a ∈ as, format_date_info a.date a.desc bs = none := by
    intro a ha
    have : (find_matches a.date bs).1 = true :=
      (find_matches_fst_iff _ _).2 ⟨b, hb, hall a ha⟩
    simp [format_date_info, this]
  refine ⟨hfmt, ?_⟩
  rw [match_info, List.filterMap_eq_nil_iff]
  exact hfmt

/-- Witness for C6: one ledger-B occurrence explains two ledger-A
occurrences at once. -/
theorem C6_existence_check_not_consumable_witness :
    (∀ a ∈ [(⟨0, "x"⟩ : Occ), ⟨6, "y"⟩],
        format_date_info a.date a.desc [⟨3, "z"⟩] = none)
    ∧ match_info [⟨0, "x"⟩, ⟨6, "y"⟩] [⟨3, "z"⟩] = [] :=
  C6_existence_check_not_consumable.2 [⟨0, "x"⟩, ⟨6, "y"⟩] [⟨3, "z"⟩] ⟨3, "z"⟩
    (by decide) (by decide)

/-- Claim C10: the explained/unexplained marks depend only on the dates,
never on descriptions — inputs identical except for description strings
yield the same per-occurrence reported/suppressed pattern. -/
theorem C10_descriptions_do_not_affect_marks (A A' B B' : List Occ)
    (hA : A.map Occ.date = A'.map Occ.date)
    (hB : B.map Occ.date = B'.map Occ.date) :
    A.map (fun o => (format_date_info o.date o.desc B).isSome)
      = A'.map (fun o => (format_date_info o.date o.desc B').isSome) := by
  have hfmt : ∀ (d : ℤ) (s s' : String),
      (format_date_info d s B).isSome = (format_date_info d s' B').isSome := by
    intro d s s'
    rw [format_date_info, format_date_info, find_matches_eq_of_dates d hB]
    by_cases hm : (find_matches d B').1 <;> simp [hm]
  induction A generalizing A' with
  | nil => cases A' with
    | nil => rfl
    | cons a' l' => simp at hA
  | cons a l ih =>
    cases A' with
    | nil => simp at hA
    | cons a' l' =>
      simp only [List.map_cons, List.cons.injEq] at hA ⊢
      refine ⟨?_, ih l' hA.2⟩
      rw [hA.1]
      exact hfmt a'.date a.desc a'.desc

/-- Witness for C10: changing every description changes no mark. -/
theorem C10_descriptions_do_not_affect_marks_witness :
    ([(⟨0, "x"⟩ : Occ), ⟨9, "y"⟩].map
        (fun o => (format_date_info o.date o.desc [(⟨1, "p"⟩ : Occ)]).isSome))
      = ([(⟨0, "u"⟩ : Occ), ⟨9, "v"⟩].map
        (fun o => (format_date_info o.date o.desc [(⟨1, "q"⟩ : Occ)]).isSome)) :=
  C10_descriptions_do_not_affect_marks _ _ _ _ (by decide) (by decide)

/-! ## Rounding lemmas -/

lemma ratFloor_eq_floor (q : ℚ) : ratFloor q = ⌊q⌋ := by
  unfold ratFloor
  rw [Rat.floor_def]

lemma ratFloor_intCast (n : ℤ) : ratFloor ((n : ℤ) : ℚ) = n := by
  unfold ratFloor
  rw [Rat.num_intCast, Rat.den_intCast]
  simp

lemma roundHalfEven_intCast (n : ℤ) : roundHalfEven ((n : ℤ) : ℚ) = n := by
  unfold roundHalfEven ratFloor
  rw [Rat.num_intCast, Rat.den_intCast]
  norm_num

/-- Rewriting `round2` with field operations. -/
lemma round2_eq_div (q : ℚ) :
    round2 q = ((roundHalfEven (q * 100) : ℤ) : ℚ) / 100 := by
  unfold round2
  have h1 : mkRat (q.num * 100) q.den = q * 100 := by
    rw [Rat.mkRat_eq_div]
    push_cast
    rw [mul_div_right_comm, Rat.num_div_den]
  rw [h1, Rat.mkRat_eq_div]
  norm_num

/-- Rounding is idempotent: already-rounded amounts are fixed points. -/
lemma round2_idem (q : ℚ) : round2 (round2 q) = round2 q := by
  rw [round2_eq_div q, round2_eq_div]
  have h : ((roundHalfEven (q * 100) : ℤ) : ℚ) / 100 * 100
      = ((roundHalfEven (q * 100) : ℤ) : ℚ) := by
    field_simp
  rw [h, roundHalfEven_intCast]

/-! ## Claim C4 -/

/-- Claim C4: every amount reaching classification is rounded to 2
decimals (every emitted record's amount is a `round2` fixed point), and
raw amounts differing only from the third decimal on, such as 10.001
and 10.004, land in the same bucket key 10.00 — so two such ledgers
produce no mismatch at all. -/
theorem C4_round_before_grouping :
    (∀ (txs1 txs2 : List Tx) (r : MismatchRecord),
        r ∈ (find_mismatches txs1 txs2).1 ++ (find_mismatches txs1 txs2).2 →
        round2 r.amount = r.amount)
    ∧ round2 (mkRat 10001 1000) = 10
    ∧ round2 (mkRat 10004 1000) = 10
    ∧ find_mismatches [⟨mkRat 10001 1000, 0, "a"⟩] [⟨mkRat 10004 1000, 5, "b"⟩]
        = ([], []) := by
  refine ⟨?_, by decide, by decide, by decide⟩
  intro txs1 txs2 r hr
  simp only [find_mismatches] at hr
  rw [List.mem_append] at hr
  have hrec : r ∈ (amountKeys txs1 txs2).map (bucketRecord txs1 txs2) := by
    cases hr with
    | inl h => exact List.mem_of_mem_filter h
    | inr h => exact List.mem_of_mem_filter h
  rcases List.mem_map.mp hrec with ⟨a, ha, rfl⟩
  rcases List.mem_map.mp (List.mem_dedup.mp ha) with ⟨t, _, rfl⟩
  exact round2_idem t.amount

/-- Witness for C4 at a concrete emitted record. -/
theorem C4_round_before_grouping_witness :
    round2 (bucketRecord [⟨(50 : ℚ), 0, "a"⟩] [] 50).amount
      = (bucketRecord [⟨(50 : ℚ), 0, "a"⟩] [] 50).amount :=
  C4_round_before_grouping.1 [⟨(50 : ℚ), 0, "a"⟩] []
    (bucketRecord [⟨(50 : ℚ), 0, "a"⟩] [] 50) (by decide)

/-! ## Claim C2 -/

lemma occList_ne_nil_iff (a : ℚ) (txs : List Tx) :
    occList a txs ≠ [] ↔ ∃ t ∈ txs, round2 t.amount = a := by
  unfold occList
  rw [Ne, List.map_eq_nil_iff]
  constructor
  · intro h
    rcases List.exists_mem_of_ne_nil _ h with ⟨t, ht⟩
    rw [List.mem_filter] at ht
    exact ⟨t, ht.1, by simpa using ht.2⟩
  · rintro ⟨t, ht, hround⟩ hnil
    rw [List.filter_eq_nil_iff] at hnil
    exact hnil t ht (by simpa using hround)

lemma mem_amountKeys_iff (txs1 txs2 : List Tx) (a : ℚ) :
    a ∈ amountKeys txs1 txs2 ↔ occList a txs1 ≠ [] ∨ occList a txs2 ≠ [] := by
  unfold amountKeys
  rw [List.mem_dedup, List.mem_map]
  rw [occList_ne_nil_iff, occList_ne_nil_iff]
  constructor
  · rintro ⟨t, ht, rfl⟩
    rcases List.mem_append.mp ht with h1 | h2
    · exact Or.inl ⟨t, h1, rfl⟩
    · exact Or.inr ⟨t, h2, rfl⟩
  · rintro (⟨t, ht, rfl⟩ | ⟨t, ht, rfl⟩)
    · exact ⟨t, List.mem_append.mpr (Or.inl ht), rfl⟩
    · exact ⟨t, List.mem_append.mpr (Or.inr ht), rfl⟩

lemma filter_eq_singleton_of_nodup {l : List ℚ} (hl : l.Nodup) {a : ℚ}
    (ha : a ∈ l) : l.filter (fun k => k = a) = [a] := by
  induction l with
  | nil => cases ha
  | cons b t ih =>
    rcases List.mem_cons.mp ha with rfl | hat
    · rw [List.filter_cons_of_pos (by simp)]
      have hnot : a ∉ t := (List.nodup_cons.mp hl).1
      have ht : t.filter (fun k => k = a) = [] := by
        rw [List.filter_eq_nil_iff]
        intro k hk hkb
        simp only [decide_eq_true_eq] at hkb
        exact hnot (hkb ▸ hk)
      rw [ht]
    · have hb : ¬(b = a) := by
        rintro rfl
        exact (List.nodup_cons.mp hl).1 hat
      rw [List.filter_cons_of_neg (by simpa using hb)]
      exact ih (List.nodup_cons.mp hl).2 hat

/-- Claim C2: the classifier is a full outer join on the rounded amount
key (an absent side contributing count 0 and an empty list); equal
counts emit no record regardless of dates/descriptions, unequal counts
emit exactly one record carrying the amount, both counts and both
occurrence lists. -/
theorem C2_outer_join_classifier (txs1 txs2 : List Tx) (a : ℚ) :
    (a ∈ amountKeys txs1 txs2 ↔ occList a txs1 ≠ [] ∨ occList a txs2 ≠ [])
    ∧ (((find_mismatches txs1 txs2).1 ++ (find_mismatches txs1 txs2).2).countP
          (fun r => r.amount = a)
        = if (occList a txs1).length = (occList a txs2).length then 0 else 1)
    ∧ (∀ r, r ∈ (find_mismatches txs1 txs2).1 ++ (find_mismatches txs1 txs2).2 →
        r.amount = a → r = bucketRecord txs1 txs2 a) := by
  refine ⟨mem_amountKeys_iff txs1 txs2 a, ?_, ?_⟩
  · simp only [find_mismatches]
    rw [List.countP_append]
    rw [List.countP_filter, List.countP_filter, List.countP_map, List.countP_map]
    by_cases ha : a ∈ amountKeys txs1 txs2
    · have hsingle :
          (amountKeys txs1 txs2).filter (fun k => k = a) = [a] :=
        filter_eq_singleton_of_nodup (List.nodup_dedup _) ha
      have step : ∀ (p : MismatchRecord → Bool),
          (amountKeys txs1 txs2).countP
              ((fun r => decide (r.amount = a) && p r) ∘ bucketRecord txs1 txs2)
            = if p (bucketRecord txs1 txs2 a) then 1 else 0 := by
        intro p
        have hcongr : (amountKeys txs1 txs2).countP
              ((fun r => decide (r.amount = a) && p r) ∘ bucketRecord txs1 txs2)
            = (amountKeys txs1 txs2).countP
              (fun k => p (bucketRecord txs1 txs2 k) && decide (k = a)) := by
          refine List.countP_congr ?_
          intro k _
          show (decide (k = a) && p (bucketRecord txs1 txs2 k)) = true
              ↔ (p (bucketRecord txs1 txs2 k) && decide (k = a)) = true
          rw [Bool.and_comm]
        rw [hcongr, ← List.countP_filter, hsingle]
        simp [List.countP_cons]
      rw [step, step]
      rcases Nat.lt_trichotomy (occList a txs1).length (occList a txs2).length
        with h | h | h
      · have h1 : ¬((bucketRecord txs1 txs2 a).count2 < (bucketRecord txs1 txs2 a).count1) := by
          simpa [bucketRecord] using Nat.not_lt.mpr (Nat.le_of_lt h)
        have h2 : (bucketRecord txs1 txs2 a).count1 < (bucketRecord txs1 txs2 a).count2 := by
          simpa [bucketRecord] using h
        simp [h1, h2, Nat.ne_of_lt h]
      · have h1 : ¬((bucketRecord txs1 txs2 a).count2 < (bucketRecord txs1 txs2 a).count1) := by
          simpa [bucketRecord] using Nat.not_lt.mpr (Nat.le_of_eq h)
        have h2 : ¬((bucketRecord txs1 txs2 a).count1 < (bucketRecord txs1 txs2 a).count2) := by
          simpa [bucketRecord] using Nat.not_lt.mpr (Nat.le_of_eq h.symm)
        simp [h1, h2, h]
      · have h1 : (bucketRecord txs1 txs2 a).count2 < (bucketRecord txs1 txs2 a).count1 := by
          simpa [bucketRecord] using h
        have h2 : ¬((bucketRecord txs1 txs2 a).count1 < (bucketRecord txs1 txs2 a).count2) := by
          simpa [bucketRecord] using Nat.not_lt.mpr (Nat.le_of_lt h)
        simp [h1, h2, (Nat.ne_of_lt h).symm]
    · have hz : ∀ (p : MismatchRecord → Bool),
          (amountKeys txs1 txs2).countP
              ((fun r => decide (r.amount = a) && p r) ∘ bucketRecord txs1 txs2) = 0 := by
        intro p
        rw [List.countP_eq_zero]
        intro k hk hcontra
        simp only [Function.comp_apply, Bool.and_eq_true, decide_eq_true_eq] at hcontra
        exact ha (hcontra.1 ▸ hk)
      rw [hz, hz]
      have h1 : occList a txs1 = [] := by
        by_contra hne
        exact ha ((mem_amountKeys_iff txs1 txs2 a).mpr (Or.inl hne))
      have h2 : occList a txs2 = [] := by
        by_contra hne
        exact ha ((mem_amountKeys_iff txs1 txs2 a).mpr (Or.inr hne))
      simp [h1, h2]
  · intro r hr hra
    simp only [find_mismatches] at hr
    rw [List.mem_append] at hr
    have hrec : r ∈ (amountKeys txs1 txs2).map (bucketRecord txs1 txs2) := by
      cases hr with
      | inl h => exact List.mem_of_mem_filter h
      | inr h => exact List.mem_of_mem_filter h
    rcases List.mem_map.mp hrec with ⟨k, _, rfl⟩
    have : k = a := hra
    rw [this]

/-- Witness for C2: with one $50 bank transaction and an empty
QuickBooks ledger, the single emitted record is the $50 bucket record. -/
theorem C2_outer_join_classifier_witness :
    (⟨50, 1, 0, [⟨0, "a"⟩], []⟩ : MismatchRecord)
      = bucketRecord [⟨(50 : ℚ), 0, "a"⟩] [] 50 :=
  (C2_outer_join_classifier [⟨(50 : ℚ), 0, "a"⟩] [] 50).2.2
    ⟨50, 1, 0, [⟨0, "a"⟩], []⟩ (by decide) (by decide)

/-! ## Claims C1 and C7 -/

/-- An occurrence is suppressed (explained) exactly when the other
ledger holds a same-bucket date within 3 days. -/
lemma format_date_info_none_iff (d : ℤ) (s : String) (ds : List Occ) :
    format_date_info d s ds = none ↔ ∃ o ∈ ds, (d - o.date).natAbs ≤ 3 := by
  rw [← find_matches_fst_iff d ds]
  unfold format_date_info
  cases h : (find_matches d ds).1 <;> simp [h]

/-- Claim C1 is a code bug: with an empty bank ledger and one $50.00
QuickBooks transaction, the QB-excess mismatch record is produced and
its excess occurrence has no counterpart (the matcher would report it),
yet the printed report is empty in both directions, because
`print_mismatches` iterates `row['info1']` — the bank-side list — for
the QuickBooks direction as well, instead of the excess side. -/
theorem C1_report_iterates_bank_side_only :
    (find_mismatches [] [⟨(50 : ℚ), 0, "x"⟩]).2
        = [⟨50, 0, 1, [], [⟨0, "x"⟩]⟩]
    ∧ format_date_info 0 "x" []
        = some (toString (0 : ℤ) ++ ": " ++ "x" ++ " (no match)")
    ∧ (report [] [⟨(50 : ℚ), 0, "x"⟩]).1 = []
    ∧ (report [] [⟨(50 : ℚ), 0, "x"⟩]).2 = [] := by
  refine ⟨by decide, by decide, by decide, by decide⟩

/-- Claim C7 counterexample: ledger A holds two $50.00 transactions
(days 0 and 1), ledger B holds one (day 0).  The mismatch record with
countA = 2, countB = 1 is emitted, but the single B occurrence lies
within tolerance of BOTH A occurrences, so both are marked explained
and the final report is empty — not "at most one explained, leaving
the other unexplained". -/
theorem C7_counterexample_both_explained :
    (find_mismatches [⟨(50 : ℚ), 0, "a1"⟩, ⟨(50 : ℚ), 1, "a2"⟩]
        [⟨(50 : ℚ), 0, "b"⟩]).1
        = [⟨50, 2, 1, [⟨0, "a1"⟩, ⟨1, "a2"⟩], [⟨0, "b"⟩]⟩]
    ∧ format_date_info 0 "a1" [⟨0, "b"⟩] = none
    ∧ format_date_info 1 "a2" [⟨0, "b"⟩] = none
    ∧ (report [⟨(50 : ℚ), 0, "a1"⟩, ⟨(50 : ℚ), 1, "a2"⟩] [⟨(50 : ℚ), 0, "b"⟩]).1
        = []
    ∧ (report [⟨(50 : ℚ), 0, "a1"⟩, ⟨(50 : ℚ), 1, "a2"⟩] [⟨(50 : ℚ), 0, "b"⟩]).2
        = [] := by
  refine ⟨by decide, by decide, by decide, by decide, by decide⟩

/-- Claim C7 (amended): with two $50.00 transactions in ledger A and one
in ledger B, the mismatch record with countA = 2, countB = 1 is
emitted, and the tolerance matcher marks each of the two A occurrences
explained independently, exactly when B's date lies within 3 days of
it — a single B date within tolerance of both marks both explained. -/
theorem C7_two_vs_one_independent_marks (dA1 dA2 dB : ℤ) (s1 s2 s3 : String) :
    (find_mismatches [⟨(50 : ℚ), dA1, s1⟩, ⟨(50 : ℚ), dA2, s2⟩]
        [⟨(50 : ℚ), dB, s3⟩]).1
        = [⟨50, 2, 1, [⟨dA1, s1⟩, ⟨dA2, s2⟩], [⟨dB, s3⟩]⟩]
    ∧ (format_date_info dA1 s1 [⟨dB, s3⟩] = none ↔ (dA1 - dB).natAbs ≤ 3)
    ∧ (format_date_info dA2 s2 [⟨dB, s3⟩] = none ↔ (dA2 - dB).natAbs ≤ 3) := by
  have hkey : round2 (50 : ℚ) = 50 := by decide
  refine ⟨?_, ?_, ?_⟩
  · simp [find_mismatches, amountKeys, bucketRecord, occList, hkey]
  · rw [format_date_info_none_iff]
    simp
  · rw [format_date_info_none_iff]
    simp

/-- Witness for the amended C7 at concrete dates: days 0 and 9 in A,
day 1 in B — the record (2, 1) is emitted. -/
theorem C7_two_vs_one_independent_marks_witness :
    (find_mismatches [⟨(50 : ℚ), 0, "p"⟩, ⟨(50 : ℚ), 9, "q"⟩]
        [⟨(50 : ℚ), 1, "r"⟩]).1
        = [⟨50, 2, 1, [⟨0, "p"⟩, ⟨9, "q"⟩], [⟨1, "r"⟩]⟩] :=
  (C7_two_vs_one_independent_marks 0 9 1 "p" "q" "r").1

/-! ## Claim C9 -/

lemma mapME_ok_of_forall {α β : Type} (f : α → Except LoadError β)
    (l : List α) (h : ∀ a ∈ l, ∃ b, f a = .ok b) :
    ∃ bs, mapME f l = .ok bs := by
  induction l with
  | nil => exact ⟨[], rfl⟩
  | cons a t ih =>
    rcases h a (List.mem_cons_self a t) with ⟨b, hb⟩
    rcases ih (fun x hx => h x (List.mem_cons_of_mem a hx)) with ⟨bs, hbs⟩
    exact ⟨b :: bs, by simp [mapME, hb, hbs]⟩

/-- Claim C9 counterexample: the date column is parsed before the
description/amount column checks, so with the date column present but
unparsable and the configured description column absent, loading fails
with a date-parse error — not a schema error, and its message does not
carry the present column names. -/
theorem C9_counterexample_parse_preempts_schema :
    "Description" ∉ (Csv.mk ["Date"] [[("Date", "garbage")]]).columns
    ∧ load_and_standardize {} (Csv.mk ["Date"] [[("Date", "garbage")]])
        = .error (.dateParseError "Unable to parse date: garbage")
    ∧ (LoadError.dateParseError "Unable to parse date: garbage").isSchema = false := by
  refine ⟨by decide, by decide, rfl⟩

/-- Claim C9 (amended): an absent date column always raises the schema
error; when the date column is present and every date parses, the
absence of any other configured column (description, amount, charge or
payment) raises a schema error; every schema error carries the file's
actual columns and its message ends with their comma-joined list. -/
theorem C9_schema_errors_list_present_columns (fc : FileConfig) (csv : Csv) :
    (fc.date_col ∉ csv.columns →
      load_and_standardize fc csv
        = .error (.schemaError "Date" fc.date_col (fileType fc) fc.skip_rows csv.columns))
    ∧ (fc.date_col ∈ csv.columns →
      (∀ r ∈ csv.rows, ∃ d, rowDate fc r = .ok d) →
      (fc.desc_col ∉ csv.columns
        ∨ optAbsent fc.amount_column csv.columns ≠ none
        ∨ optAbsent fc.charge_amount csv.columns ≠ none
        ∨ optAbsent fc.payment_amount csv.columns ≠ none) →
      ∃ kind col, load_and_standardize fc csv
          = .error (.schemaError kind col (fileType fc) fc.skip_rows csv.columns))
    ∧ (∀ kind col ftype sk cols, ∃ p,
        (LoadError.schemaError kind col ftype sk cols).message
          = p ++ String.intercalate ", " cols) := by
  refine ⟨?_, ?_, ?_⟩
  · intro h
    unfold load_and_standardize
    rw [if_neg h]
  · intro hdate hrows hdisj
    rcases mapME_ok_of_forall _ _ hrows with ⟨ds, hds⟩
    by_cases hdesc : fc.desc_col ∈ csv.columns
    · cases ham : optAbsent fc.amount_column csv.columns with
      | some c =>
        refine ⟨"Amount", c, ?_⟩
        unfold load_and_standardize
        simp only [if_pos hdate, hds, if_pos hdesc, ham]
      | none =>
        cases hch : optAbsent fc.charge_amount csv.columns with
        | some c =>
          refine ⟨"Charge", c, ?_⟩
          unfold load_and_standardize
          simp only [if_pos hdate, hds, if_pos hdesc, ham, hch]
        | none =>
          cases hpay : optAbsent fc.payment_amount csv.columns with
          | some c =>
            refine ⟨"Payment", c, ?_⟩
            unfold load_and_standardize
            simp only [if_pos hdate, hds, if_pos hdesc, ham, hch, hpay]
          | none =>
            rcases hdisj with h | h | h | h
            · exact absurd hdesc h
            · exact absurd ham h
            · exact absurd hch h
            · exact absurd hpay h
    · refine ⟨"Description", fc.desc_col, ?_⟩
      unfold load_and_standardize
      simp only [if_pos hdate, hds, if_neg hdesc]
  · intro kind col ftype sk cols
    exact ⟨kind ++ " column '" ++ col ++ "' not found in " ++ ftype
      ++ " CSV.\nColumns in file (after skipping " ++ toString sk
      ++ " rows): ", by simp [LoadError.message, String.append_assoc]⟩

/-- Witness for C9 (amended): a file without the configured date column
fails with the Date schema error listing the present columns. -/
theorem C9_schema_errors_list_present_columns_witness :
    load_and_standardize {} (Csv.mk ["X"] [])
      = .error (.schemaError "Date" "Date" "bank" 0 ["X"]) :=
  (C9_schema_errors_list_present_columns {} (Csv.mk ["X"] [])).1 (by decide)

example : standardize_date "01/02/2024" = .ok ⟨2024, 1, 2⟩ := by decide
example : standardize_date "2024-01-05" = .ok ⟨2024, 1, 5⟩ := by decide
example : standardize_date "garbage" = .error "Unable to parse date: garbage" := by
  decide
example : parseFloat "-1,250.75" = some (mkRat (-125075) 100) := by decide
example : parseFloat "50.00" = some 50 := by decide

example : round2 (mkRat 10001 1000) = 10 := by decide
example : round2 (mkRat 10004 1000) = 10 := by decide
example : round2 (50 : ℚ) = 50 := by decide
example :
    find_mismatches [⟨mkRat 10001 1000, 0, "a"⟩] [⟨mkRat 10004 1000, 5, "b"⟩] = ([], []) := by
  decide

end QbReconcile
